import Mathlib

/-!
Verification of the DeepScroll capture/stitch/edit core against its design
specification. The definitions below are shallow embeddings of the
JavaScript sources:

* `throttledCapture` / `runIssues` — the capture rate limiter of
  `src/background.js` (`lastCaptureTime`, `MIN_CAPTURE_INTERVAL`), run over a
  sequence of sequential capture requests with explicit millisecond clocks.
* `saveState` / `undo` / `redo` — the history manager of
  `src/editor/Canvas.jsx` (note: the `history.length > 20` branch in the
  source is empty, so no eviction is modelled).
* `applyCrop`, `applyRedact`, `applyBlur`, `applyArrow`, `applyRect`,
  `commitGesture` — the tool commit path of `Canvas.jsx`
  (`handleMouseUp` and the tool helpers).
* `stitchImages` — the overlap computation of `stitchImages` in `Canvas.jsx`.
* `loopIter` / `runLoop` / `captureLoop` — the capture loop of
  `src/content.js`, parameterized by an environment supplying the page's
  measured scroll state and capture outcomes.
-/

set_option maxRecDepth 4000

namespace DeepScroll

/-! ## Capture rate limiter (src/background.js) -/

/-- Source constant `MIN_CAPTURE_INTERVAL = 800` (milliseconds). -/
def MIN_CAPTURE_INTERVAL : Nat := 800

/-- One sequential capture request: `gap` is the idle time between the
previous call returning and this call starting, `dur` the duration of the
underlying `chrome.tabs.captureVisibleTab` call, `ok` whether it succeeds. -/
structure CaptureReq where
  gap : Nat
  dur : Nat
  ok : Bool
  deriving DecidableEq, Repr

/-- Limiter state: the current clock (time at which the previous call
returned) and the module-global `lastCaptureTime`. -/
structure RLState where
  clock : Nat
  last : Nat
  deriving DecidableEq, Repr

/-- Time at which `throttledCapture` issues the underlying screenshot call:
the source computes `now - lastCaptureTime` and sleeps
`MIN_CAPTURE_INTERVAL - elapsed` when `elapsed < MIN_CAPTURE_INTERVAL`. -/
def issueTime (s : RLState) (r : CaptureReq) : Nat :=
  let start := s.clock + r.gap
  if start - s.last < MIN_CAPTURE_INTERVAL then s.last + MIN_CAPTURE_INTERVAL
  else start

/-- One run of `throttledCapture`: returns the new limiter state and the
time the underlying screenshot call was issued. In the source
`lastCaptureTime = Date.now()` executes only on the success path (inside the
`try`, after `captureVisibleTab` resolves); the `catch` leaves it unchanged. -/
def throttledCapture (s : RLState) (r : CaptureReq) : RLState × Nat :=
  let t := issueTime s r
  let comp := t + r.dur
  (⟨comp, if r.ok then comp else s.last⟩, t)

/-- Issue times of a sequential run of capture requests. -/
def runIssues (s : RLState) : List CaptureReq → List Nat
  | [] => []
  | r :: rs => (throttledCapture s r).2 :: runIssues (throttledCapture s r).1 rs

theorem issueTime_ge (s : RLState) (r : CaptureReq) :
    s.last + MIN_CAPTURE_INTERVAL ≤ issueTime s r := by
  unfold issueTime MIN_CAPTURE_INTERVAL
  dsimp only
  split <;> omega

/-- C2 (amended): in a sequential call pattern in which every underlying
screenshot call succeeds, any two consecutive issue times are at least
`MIN_CAPTURE_INTERVAL` (800 ms) apart. (After a failed call
`lastCaptureTime` is left unchanged, so the spacing bound can be violated;
see the counterexample.) -/
theorem c2_throttle_spacing_all_success (s : RLState) (rs : List CaptureReq)
    (hok : ∀ r ∈ rs, r.ok = true) :
    List.Chain' (fun a b => a + MIN_CAPTURE_INTERVAL ≤ b) (runIssues s rs) := by
  induction rs generalizing s with
  | nil => simp [runIssues]
  | cons r rs ih =>
    have hr : r.ok = true := hok r (by simp)
    have hrest : ∀ x ∈ rs, x.ok = true := fun x hx => hok x (by simp [hx])
    rw [runIssues]
    refine List.chain'_cons'.mpr ⟨?_, ih _ hrest⟩
    intro y hy
    cases rs with
    | nil => simp [runIssues] at hy
    | cons r2 rs2 =>
      rw [runIssues] at hy
      simp only [List.head?_cons, Option.mem_def, Option.some.injEq] at hy
      subst hy
      have h1 := issueTime_ge (throttledCapture s r).1 r2
      have h2 : (throttledCapture s r).2 + r.dur = ((throttledCapture s r).1).last := by
        simp [throttledCapture, hr]
      simp only [throttledCapture] at h1 h2 ⊢
      omega

/-- Witness for C2's amended theorem at a concrete all-success run. -/
theorem c2_throttle_spacing_witness :
    List.Chain' (fun a b => a + MIN_CAPTURE_INTERVAL ≤ b)
      (runIssues ⟨0, 0⟩ [⟨1000, 100, true⟩, ⟨0, 50, true⟩]) :=
  c2_throttle_spacing_all_success ⟨0, 0⟩ [⟨1000, 100, true⟩, ⟨0, 50, true⟩] (by decide)

/-- C2 counterexample: a purely sequential pattern with one failed capture.
The failed call at t=1900 does not update `lastCaptureTime`, so the next
call is issued at t=2000, only 100 ms after the previous screenshot call. -/
theorem c2_spacing_counterexample :
    runIssues ⟨0, 0⟩ [⟨1000, 100, true⟩, ⟨0, 100, false⟩, ⟨0, 100, true⟩] =
      [1000, 1900, 2000] ∧
    ¬ List.Chain' (fun a b => a + MIN_CAPTURE_INTERVAL ≤ b)
        (runIssues ⟨0, 0⟩ [⟨1000, 100, true⟩, ⟨0, 100, false⟩, ⟨0, 100, true⟩]) := by
  refine ⟨rfl, ?_⟩
  intro h
  rw [show runIssues ⟨0, 0⟩ [⟨1000, 100, true⟩, ⟨0, 100, false⟩, ⟨0, 100, true⟩] =
      [1000, 1900, 2000] from rfl] at h
  have h3 := (List.chain'_cons.mp (List.chain'_cons.mp h).2).1
  simp [MIN_CAPTURE_INTERVAL] at h3

/-- C3 (amended): after a successful underlying screenshot call,
`lastCaptureTime` is set to that call's completion time (the current time at
the update, which is also the limiter's clock when it returns); after a
failed call it is left unchanged. -/
theorem c3_last_update (s : RLState) (r : CaptureReq) :
    (r.ok = true →
      ((throttledCapture s r).1).last = issueTime s r + r.dur ∧
      ((throttledCapture s r).1).clock = ((throttledCapture s r).1).last) ∧
    (r.ok = false → ((throttledCapture s r).1).last = s.last) := by
  constructor <;> intro h <;> simp [throttledCapture, h]

/-- Witness for C3's amended theorem: one successful and one failed call. -/
theorem c3_last_update_witness :
    ((throttledCapture ⟨0, 0⟩ ⟨1000, 100, true⟩).1).last =
      issueTime ⟨0, 0⟩ ⟨1000, 100, true⟩ + 100 ∧
    ((throttledCapture ⟨0, 0⟩ ⟨0, 100, false⟩).1).last = 0 :=
  ⟨((c3_last_update ⟨0, 0⟩ ⟨1000, 100, true⟩).1 rfl).1,
    (c3_last_update ⟨0, 0⟩ ⟨0, 100, false⟩).2 rfl⟩

/-- C3 counterexample: a failed call returns at clock 1100 but leaves
`lastCaptureTime` at 0, so the timestamp is not updated to the current time
on the failure path. -/
theorem c3_counterexample :
    ((throttledCapture ⟨0, 0⟩ ⟨1000, 100, false⟩).1).last = 0 ∧
    ((throttledCapture ⟨0, 0⟩ ⟨1000, 100, false⟩).1).clock = 1100 ∧
    ((throttledCapture ⟨0, 0⟩ ⟨1000, 100, false⟩).1).last ≠
      ((throttledCapture ⟨0, 0⟩ ⟨1000, 100, false⟩).1).clock := by
  exact ⟨rfl, rfl, by decide⟩

/-! ## Edit buffer history manager (src/src/editor/Canvas.jsx) -/

/-- Source constant `CONSTANTS.HISTORY_LIMIT = 20` from
`src/src/editor/constants.js` ("Maximum number of undo/redo history
states"). `Canvas.jsx` imports `CONSTANTS` but its inline `saveState` never
uses the limit: the `if (history.length > 20)` branch is empty. -/
def HISTORY_LIMIT : Nat := 20

/-- Editor history state of `Canvas.jsx`: the snapshot list `history`, the
cursor `historyIndex`, and the current edit buffer. -/
structure EditorState (α : Type) where
  history : List α
  index : Nat
  buffer : α
  deriving DecidableEq, Repr

/-- The `saveState` of `Canvas.jsx`: snapshot the current buffer, truncate
everything after the cursor (`history.slice(0, historyIndex + 1)`), append,
and move the cursor to the last index. The source's `if (history.length >
20)` check has an empty body ("Future: shift logic. For now simple."), so
no eviction happens. -/
def saveState {α : Type} (s : EditorState α) : EditorState α :=
  let newHistory := s.history.take (s.index + 1) ++ [s.buffer]
  ⟨newHistory, newHistory.length - 1, s.buffer⟩

/-- The `undo` of `Canvas.jsx`: no-op when `historyIndex <= 0`, otherwise
decrement the cursor and restore that snapshot into the buffer
(`restoreState` replaces content and dimensions wholesale). The `getD`
fallback is unreachable because the decremented cursor is in bounds. -/
def undo {α : Type} (s : EditorState α) : EditorState α :=
  if s.index = 0 then s
  else ⟨s.history, s.index - 1, s.history.getD (s.index - 1) s.buffer⟩

/-- The `redo` of `Canvas.jsx`: no-op when
`historyIndex >= history.length - 1`, otherwise increment the cursor and
restore that snapshot. -/
def redo {α : Type} (s : EditorState α) : EditorState α :=
  if s.history.length - 1 ≤ s.index then s
  else ⟨s.history, s.index + 1, s.history.getD (s.index + 1) s.buffer⟩

/-- C9: `undo`/`redo` move the cursor by exactly -1/+1 within bounds and
are no-ops at the boundaries, and `redo` immediately after a `saveState`
(in particular after a new edit following any number of `undo` calls) is a
no-op, because `saveState` truncates the redo branch and parks the cursor
at the last index. -/
theorem c9_undo_redo {α : Type} (s : EditorState α) :
    (s.index = 0 → undo s = s) ∧
    (0 < s.index → (undo s).index = s.index - 1) ∧
    (s.history.length - 1 ≤ s.index → redo s = s) ∧
    (s.index < s.history.length - 1 → (redo s).index = s.index + 1) ∧
    redo (saveState s) = saveState s := by
  refine ⟨fun h => by simp [undo, h], fun h => by simp [undo, Nat.pos_iff_ne_zero.mp h],
    fun h => by simp [redo, h], fun h => by simp [redo, Nat.not_le.mpr h], ?_⟩
  have hlen : (saveState s).history.length - 1 ≤ (saveState s).index := by
    simp [saveState]
  simp [redo, hlen]

/-- Witness for C9 at a three-snapshot state with cursor 1. -/
theorem c9_undo_redo_witness :
    (undo (⟨[10, 20, 30], 1, 20⟩ : EditorState Nat)).index = 0 ∧
    (redo (⟨[10, 20, 30], 1, 20⟩ : EditorState Nat)).index = 2 ∧
    redo (saveState (⟨[10, 20, 30], 1, 20⟩ : EditorState Nat)) =
      saveState (⟨[10, 20, 30], 1, 20⟩ : EditorState Nat) :=
  ⟨(c9_undo_redo ⟨[10, 20, 30], 1, 20⟩).2.1 (by decide),
    (c9_undo_redo ⟨[10, 20, 30], 1, 20⟩).2.2.2.1 (by decide),
    (c9_undo_redo ⟨[10, 20, 30], 1, 20⟩).2.2.2.2⟩

/-- One committed edit: mutate the buffer, then `saveState` (the shape of
every committing tool gesture in `Canvas.jsx`). -/
def canvasEdit {α : Type} (s : EditorState α) (snap : α) : EditorState α :=
  saveState { s with buffer := snap }

/-- The editor state after the initial snapshot (history `[0]`, cursor 0)
followed by 25 sequential edits producing snapshots 1..25. -/
def c1Run : EditorState Nat :=
  (List.range 25).foldl (fun s k => canvasEdit s (k + 1)) ⟨[0], 0, 0⟩

/-- C1 (evaluation at the failing input): after 25 sequential edits the
history holds 26 snapshots — `HISTORY_LIMIT` (20) is not enforced and the
cursor reaches 25 (beyond limit-1) — and 20 `undo` calls land on the state
after the 5th edit, while 25 `undo` calls reach the original initial state,
contradicting the claimed eviction behavior. -/
theorem c1_history_unbounded :
    c1Run.history.length = 26 ∧
    ¬ c1Run.history.length ≤ HISTORY_LIMIT ∧
    c1Run.index = 25 ∧
    (undo^[20] c1Run).buffer = 5 ∧
    (undo^[25] c1Run).buffer = 0 := by
  exact ⟨by decide, by decide, by decide, by decide, by decide⟩

/-! ## Edit buffer and tool commits (src/src/editor/Canvas.jsx) -/

/-- Pixel color, abstractly encoded as a natural number (RGBA value). -/
abbrev Color := Nat

/-- Color of pixels a fresh canvas holds and of out-of-bounds reads. -/
def transparentColor : Color := 0

/-- Source constant `REDACT_COLOR = '#000000'` (opaque black), encoded. -/
def REDACT_COLOR : Color := 255

/-- The edit buffer (`editCanvasRef`): a raster with current dimensions and
a pixel map. Coordinates are integers; `read` clips to the bounds the way a
canvas read does (out-of-bounds pixels are transparent). -/
structure EB where
  width : Int
  height : Int
  data : Int → Int → Color

/-- Bounds-respecting pixel read of an edit buffer. -/
def EB.read (eb : EB) (i j : Int) : Color :=
  if 0 ≤ i ∧ i < eb.width ∧ 0 ≤ j ∧ j < eb.height then eb.data i j
  else transparentColor

/-- Screen/buffer coordinates. -/
abbrev Point := Int × Int

/-- Source constant `BEAUTIFY_PADDING = 60`. -/
def BEAUTIFY_PADDING : Int := 60

/-- The `getInternalCoords` helper of `Canvas.jsx`: subtract the beautify
padding (active only in beautified display mode) from screen coordinates. -/
def getInternalCoords (isBeautified : Bool) (p : Point) : Point :=
  let padding : Int := if isBeautified then BEAUTIFY_PADDING else 0
  (p.1 - padding, p.2 - padding)

/-- The `applyCrop` of `Canvas.jsx`: derive the selection rectangle from
the two gesture corners in internal coordinates, reject selections with
`w < 10 || h < 10` as a no-op, otherwise allocate a fresh `w`-by-`h` canvas
and `drawImage` the sub-rectangle `(x, y, w, h)` into it (source pixels
outside the old buffer stay transparent), replacing the buffer. -/
def applyCrop (isBeautified : Bool) (startP stopP : Point) (eb : EB) : EB :=
  let p1 := getInternalCoords isBeautified startP
  let p2 := getInternalCoords isBeautified stopP
  let x := min p1.1 p2.1
  let y := min p1.2 p2.2
  let w := |p2.1 - p1.1|
  let h := |p2.2 - p1.2|
  if w < 10 ∨ h < 10 then eb
  else
    ⟨w, h, fun i j =>
      if 0 ≤ i ∧ i < w ∧ 0 ≤ j ∧ j < h then eb.read (x + i) (y + j)
      else transparentColor⟩

/-- C7: a crop with selection `(x, y, w, h)` (gesture corners `(x, y)` and
`(x+w, y+h)`, `w, h ≥ 0`) replaces the buffer by an exactly `w`-by-`h`
buffer whose pixels are the copied sub-rectangle when `w ≥ 10` and
`h ≥ 10`, and is a no-op leaving the buffer unchanged when `w < 10` or
`h < 10`. -/
theorem c7_crop (eb : EB) (x y w h : Int) (hw : 0 ≤ w) (hh : 0 ≤ h) :
    (10 ≤ w ∧ 10 ≤ h →
      (applyCrop false (x, y) (x + w, y + h) eb).width = w ∧
      (applyCrop false (x, y) (x + w, y + h) eb).height = h ∧
      EB.read (applyCrop false (x, y) (x + w, y + h) eb) = fun i j =>
        if 0 ≤ i ∧ i < w ∧ 0 ≤ j ∧ j < h then eb.read (x + i) (y + j)
        else transparentColor) ∧
    ((w < 10 ∨ h < 10) → applyCrop false (x, y) (x + w, y + h) eb = eb) := by
  have hx : min x (x + w) = x := by omega
  have hy : min y (y + h) = y := by omega
  have hwabs : |x + w - x| = w := by
    rw [add_sub_cancel_left, abs_of_nonneg hw]
  have hhabs : |y + h - y| = h := by
    rw [add_sub_cancel_left, abs_of_nonneg hh]
  constructor
  · rintro ⟨h10w, h10h⟩
    have hcond : ¬ (|x + w - x| < 10 ∨ |y + h - y| < 10) := by
      rw [hwabs, hhabs]; omega
    simp only [applyCrop, getInternalCoords, if_neg hcond]
    simp only [Bool.false_eq_true, if_false, sub_zero, hx, hy, hwabs, hhabs] at hcond ⊢
    rw [if_neg hcond]
    refine ⟨rfl, rfl, ?_⟩
    funext i j
    simp only [EB.read]
    by_cases hij : 0 ≤ i ∧ i < w ∧ 0 ≤ j ∧ j < h
    · rw [if_pos hij, if_pos hij]
    · rw [if_neg hij, if_neg hij]
  · intro hsmall
    have hcond : |x + w - x| < 10 ∨ |y + h - y| < 10 := by
      rw [hwabs, hhabs]; exact hsmall
    simp only [applyCrop, getInternalCoords]
    simp only [Bool.false_eq_true, if_false, sub_zero]
    rw [if_pos hcond]

/-- Concrete buffer used as a C7 test input. -/
def ebSample : EB := ⟨100, 100, fun i j => (i + 100 * j).natAbs⟩

/-- Witness for C7 at a 10-by-12 accepted selection and a 5-by-5 rejected
selection on a 100-by-100 buffer. -/
theorem c7_crop_witness :
    (applyCrop false (2, 3) (2 + 10, 3 + 12) ebSample).width = 10 ∧
    (applyCrop false (2, 3) (2 + 10, 3 + 12) ebSample).height = 12 ∧
    applyCrop false (4, 4) (4 + 5, 4 + 5) ebSample = ebSample := by
  have h1 := (c7_crop ebSample 2 3 10 12 (by decide) (by decide)).1 ⟨by decide, by decide⟩
  have h2 := (c7_crop ebSample 4 4 5 5 (by decide) (by decide)).2 (Or.inl (by decide))
  exact ⟨h1.1, h1.2.1, h2⟩

/-- The closed set of editor tools. -/
inductive Tool where
  | select
  | blur
  | redact
  | draw
  | arrow
  | rect
  | text
  | crop
  deriving DecidableEq, Repr

/-- Canvas 2D path-stroke primitives used by the arrow and rect tools.
Their pixel-level rasterization (anti-aliased strokes, arrowhead fill) is
the platform's, not the repository's, so it is kept abstract. -/
structure RasterOps where
  arrowOn : Point → Point → EB → EB
  rectOn : Int → Int → Int → Int → EB → EB

/-- The `applyRedact` of `Canvas.jsx`: rectangle from the gesture corners in
internal coordinates; selections with `w < 2 || h < 2` are a no-op;
otherwise `fillRect` with opaque black. -/
def applyRedact (isBeautified : Bool) (startP stopP : Point) (eb : EB) : EB :=
  let p1 := getInternalCoords isBeautified startP
  let p2 := getInternalCoords isBeautified stopP
  let x := min p1.1 p2.1
  let y := min p1.2 p2.2
  let w := |p2.1 - p1.1|
  let h := |p2.2 - p1.2|
  if w < 2 ∨ h < 2 then eb
  else
    { eb with data := fun i j =>
        if x ≤ i ∧ i < x + w ∧ y ≤ j ∧ j < y + h then REDACT_COLOR
        else eb.data i j }

/-- Pixelation region update (`applyBlur` + `updateEditedImage`): the region
is downsampled to `(max 1 (w/10))`-by-`(max 1 (h/10))` with smoothing
disabled and drawn back up over itself; the resampling is idealized
nearest-neighbor. -/
def pixelate (eb : EB) (ix iy w h : Int) : EB :=
  let sw := if w / 10 = 0 then 1 else w / 10
  let sh := if h / 10 = 0 then 1 else h / 10
  { eb with data := fun i j =>
      if ix ≤ i ∧ i < ix + w ∧ iy ≤ j ∧ j < iy + h then
        eb.read (ix + (i - ix) * sw / w * w / sw) (iy + (j - iy) * sh / h * h / sh)
      else eb.data i j }

/-- The `applyBlur` of `Canvas.jsx`: bounds from the raw gesture corners,
selections with `w < 2 || h < 2` are a no-op, otherwise the pixelation is
persisted to the edit buffer at padding-corrected coordinates. -/
def applyBlur (isBeautified : Bool) (startP stopP : Point) (eb : EB) : EB :=
  let x := min startP.1 stopP.1
  let y := min startP.2 stopP.2
  let w := |stopP.1 - startP.1|
  let h := |stopP.2 - startP.2|
  if w < 2 ∨ h < 2 then eb
  else
    let padding : Int := if isBeautified then BEAUTIFY_PADDING else 0
    pixelate eb (x - padding) (y - padding) w h

/-- The `applyArrow` of `Canvas.jsx`: head at the gesture start, tail at the
end; gestures with length below 10 (`dx^2 + dy^2 < 100`) are discarded;
otherwise the shaft and head are stroked. -/
def applyArrow (ops : RasterOps) (isBeautified : Bool) (startP stopP : Point)
    (eb : EB) : EB :=
  let headP := getInternalCoords isBeautified startP
  let tailP := getInternalCoords isBeautified stopP
  let dx := headP.1 - tailP.1
  let dy := headP.2 - tailP.2
  if dx * dx + dy * dy < 100 then eb
  else ops.arrowOn headP tailP eb

/-- The `applyRect` of `Canvas.jsx`: stroked outline of the bounding box of
the two gesture corners; no minimum size. -/
def applyRect (ops : RasterOps) (isBeautified : Bool) (startP stopP : Point)
    (eb : EB) : EB :=
  let p1 := getInternalCoords isBeautified startP
  let p2 := getInternalCoords isBeautified stopP
  ops.rectOn (min p1.1 p2.1) (min p1.2 p2.2) |p2.1 - p1.1| |p2.2 - p1.2| eb

/-- The commit half of `handleMouseUp` in `Canvas.jsx`: apply the active
tool's helper to the buffer, and push a history snapshot whenever the tool
is one of blur/redact/arrow/rect/crop/draw — the source sets
`edited = true` for these unconditionally, whether or not the helper
rejected the gesture. `draw` commits its strokes during mouse-move, so the
buffer is unchanged at mouse-up; `text` commits asynchronously via its own
prompt-then-`saveState` path and `select` commits nothing. -/
def commitGesture (ops : RasterOps) (isBeautified : Bool) (tool : Tool)
    (startP currP : Point) (s : EditorState EB) : EditorState EB :=
  let buf :=
    match tool with
    | .blur => applyBlur isBeautified startP currP s.buffer
    | .redact => applyRedact isBeautified startP currP s.buffer
    | .arrow => applyArrow ops isBeautified startP currP s.buffer
    | .rect => applyRect ops isBeautified startP currP s.buffer
    | .crop => applyCrop isBeautified startP currP s.buffer
    | _ => s.buffer
  let edited :=
    match tool with
    | .blur | .redact | .arrow | .rect | .crop | .draw => true
    | _ => false
  let s2 : EditorState EB := ⟨s.history, s.index, buf⟩
  if edited then saveState s2 else s2

/-- C8 (amended): every completed gesture of a committing tool
(blur/redact/arrow/rect/crop/draw) pushes exactly one history snapshot —
the truncated history plus one snapshot of the resulting buffer, cursor at
the last index — including gestures the tool helper rejected as too small,
which leave the buffer unchanged but still push a duplicate snapshot. -/
theorem c8_commit_pushes_snapshot (ops : RasterOps) (isBeautified : Bool)
    (tool : Tool) (startP currP : Point) (s : EditorState EB)
    (h : tool ≠ Tool.select ∧ tool ≠ Tool.text) :
    (commitGesture ops isBeautified tool startP currP s).history =
      s.history.take (s.index + 1) ++
        [(commitGesture ops isBeautified tool startP currP s).buffer] ∧
    (commitGesture ops isBeautified tool startP currP s).index =
      (commitGesture ops isBeautified tool startP currP s).history.length - 1 := by
  cases tool with
  | select => exact absurd rfl h.1
  | text => exact absurd rfl h.2
  | blur => exact ⟨rfl, rfl⟩
  | redact => exact ⟨rfl, rfl⟩
  | draw => exact ⟨rfl, rfl⟩
  | arrow => exact ⟨rfl, rfl⟩
  | rect => exact ⟨rfl, rfl⟩
  | crop => exact ⟨rfl, rfl⟩

/-- Trivial raster primitives for concrete runs (the crop and redact paths
never consult them). -/
def trivialOps : RasterOps := ⟨fun _ _ eb => eb, fun _ _ _ _ eb => eb⟩

/-- Concrete one-snapshot editor state for C8's concrete runs. -/
def demoState : EditorState EB :=
  ⟨[⟨100, 100, fun _ _ => 7⟩], 0, ⟨100, 100, fun _ _ => 7⟩⟩

/-- Witness for C8's amended theorem at a concrete accepted crop gesture. -/
theorem c8_commit_pushes_snapshot_witness :
    (commitGesture trivialOps false Tool.crop (0, 0) (50, 50) demoState).history =
      demoState.history.take (demoState.index + 1) ++
        [(commitGesture trivialOps false Tool.crop (0, 0) (50, 50) demoState).buffer] ∧
    (commitGesture trivialOps false Tool.crop (0, 0) (50, 50) demoState).index =
      (commitGesture trivialOps false Tool.crop (0, 0) (50, 50) demoState).history.length - 1 :=
  c8_commit_pushes_snapshot trivialOps false Tool.crop (0, 0) (50, 50) demoState
    ⟨by decide, by decide⟩

/-- C8 counterexample: a 5-by-5 crop gesture is rejected as too small and
leaves the buffer unchanged, yet `handleMouseUp` still sets `edited = true`
and pushes a history snapshot — the history grows from 1 to 2 entries,
refuting "rejected gestures push no history snapshot". -/
theorem c8_counterexample :
    (commitGesture trivialOps false Tool.crop (0, 0) (5, 5) demoState).buffer =
      demoState.buffer ∧
    demoState.history.length = 1 ∧
    (commitGesture trivialOps false Tool.crop (0, 0) (5, 5) demoState).history.length = 2 := by
  exact ⟨rfl, rfl, rfl⟩

/-! ## Stitching engine (stitchImages in src/src/editor/Canvas.jsx) -/

/-- One loaded slice as `stitchImages` sees it: the slice's CSS-pixel scroll
offset `slices[i].y` and the loaded image's device-pixel dimensions. -/
structure Tile where
  y : ℚ
  width : ℚ
  height : ℚ
  deriving DecidableEq, Repr

/-- Dimensions of the composited offscreen canvas. -/
structure Raster where
  width : ℚ
  height : ℚ
  deriving DecidableEq, Repr

/-- The per-pair overlap of `stitchImages`:
`max(0, (prevSliceY * dpr + prevImage.height) - currSliceY * dpr)` —
a negative computed overlap (a gap between tiles) is clamped to zero. -/
def clampedOverlap (dpr : ℚ) (prev curr : Tile) : ℚ :=
  max 0 ((prev.y * dpr + prev.height) - curr.y * dpr)

/-- Clamped overlaps of each tile after the first with its predecessor
(the `overlaps` array of the source without its leading `0`). -/
def overlapsTail (dpr : ℚ) : Tile → List Tile → List ℚ
  | _, [] => []
  | prev, c :: rest => clampedOverlap dpr prev c :: overlapsTail dpr c rest

/-- Height contributed by the tiles after the first: the source's
`totalHeight += images[i].height - actualOverlap` accumulation. -/
def stitchHeightTail (dpr : ℚ) : Tile → List Tile → ℚ
  | _, [] => 0
  | prev, c :: rest =>
      (c.height - clampedOverlap dpr prev c) + stitchHeightTail dpr c rest

/-- The dimension computation of `stitchImages`: no output for an empty
slice list; otherwise the offscreen canvas has the first image's width and
height `images[0].height` plus the per-tile contributions. -/
def stitchImages (dpr : ℚ) : List Tile → Option Raster
  | [] => none
  | t0 :: rest => some ⟨t0.width, t0.height + stitchHeightTail dpr t0 rest⟩

theorem stitchHeightTail_eq (dpr : ℚ) (prev : Tile) (l : List Tile) :
    stitchHeightTail dpr prev l =
      (l.map Tile.height).sum - (overlapsTail dpr prev l).sum := by
  induction l generalizing prev with
  | nil => simp [stitchHeightTail, overlapsTail]
  | cons c rest ih =>
    simp only [stitchHeightTail, overlapsTail, List.map_cons, List.sum_cons, ih c]
    ring

theorem overlapsTail_nonneg (dpr : ℚ) (prev : Tile) (l : List Tile) :
    ((overlapsTail dpr prev l).all fun o => decide (0 ≤ o)) = true := by
  induction l generalizing prev with
  | nil => rfl
  | cons c rest ih =>
    simp only [overlapsTail, List.all_cons, Bool.and_eq_true, decide_eq_true_eq]
    exact ⟨le_max_left 0 _, ih c⟩

/-- C4: for every non-empty tile list the stitched output height equals the
sum of all tile heights minus the sum of the clamped per-pair overlaps
`max(0, (prevY*dpr + prevHeight) - currY*dpr)`; every overlap entering the
composite is non-negative (never a negative crop); and the three-tile
scenario (y-offsets 0/700/1400, heights 800, dpr 1) composites to height
`800 + 700 + 700 = 2200`. -/
theorem c4_stitch_heights (dpr : ℚ) (t0 : Tile) (rest : List Tile) :
    stitchImages dpr (t0 :: rest) =
      some ⟨t0.width,
        (t0.height + (rest.map Tile.height).sum) - (overlapsTail dpr t0 rest).sum⟩ ∧
    ((overlapsTail dpr t0 rest).all fun o => decide (0 ≤ o)) = true ∧
    stitchImages 1 [⟨0, 1000, 800⟩, ⟨700, 1000, 800⟩, ⟨1400, 1000, 800⟩] =
      some ⟨1000, 2200⟩ := by
  refine ⟨?_, overlapsTail_nonneg dpr t0 rest, ?_⟩
  · simp only [stitchImages, stitchHeightTail_eq, Option.some.injEq, Raster.mk.injEq,
      true_and]
    ring
  · simp only [stitchImages, stitchHeightTail, clampedOverlap, Option.some.injEq,
      Raster.mk.injEq]
    norm_num

/-- C10: for every non-empty tile list, the stitched output raster's width
is the first tile's width, whatever the widths of the later tiles (they are
drawn into the first tile's width); e.g. a 640-wide first tile followed by a
1024-wide tile yields a 640-wide composite. -/
theorem c10_stitch_width (dpr : ℚ) (t0 : Tile) (rest : List Tile) :
    Option.map Raster.width (stitchImages dpr (t0 :: rest)) = some t0.width ∧
    Option.map Raster.width (stitchImages 1 [⟨0, 640, 800⟩, ⟨700, 1024, 900⟩]) =
      some 640 := by
  exact ⟨rfl, rfl⟩

/-! ## Capture loop (captureLoop in src/src/content.js) -/

/-- Source constant `MAX_SLICES = 50`. -/
def MAX_SLICES : Nat := 50

/-- Source constant `MAX_HEIGHT_GROWTH = 3`. -/
def MAX_HEIGHT_GROWTH : Int := 3

/-- The page as the loop observes it at iteration `k`: the scroll position
measured after scrolling to the requested `y` (`getScrollTop`), the
re-measured `scrollHeight`, whether the `CAPTURE_VISIBLE_TAB` round trip
succeeds, and the slice id the background returns. -/
structure LoopEnv where
  actualY : Nat → Int → Int
  newHeight : Nat → Int
  captureOk : Nat → Bool
  sliceId : Nat → Nat

/-- Mutable state of one `captureLoop` run: `currentY`, the current
`totalHeight`, and the committed `(yOffset, sliceId)` slices. -/
structure LoopState where
  currentY : Int
  totalHeight : Int
  slices : List (Int × Nat)
  deriving DecidableEq, Repr

/-- One iteration of the `while (currentY < totalHeight)` loop, in source
order: the while condition, the `MAX_SLICES` cap, the
`totalHeight > initialHeight * MAX_HEIGHT_GROWTH` cap, scroll and
re-measure (adopting a larger height), the capture attempt (a failure is
logged and skipped), the bottom check
`currentY + viewportHeight >= totalHeight` after capturing, and the step
`currentY += viewportHeight - 100`. `Sum.inr` is loop exit with the
collected slices. -/
def loopIter (env : LoopEnv) (viewportHeight initialHeight : Int) (k : Nat)
    (s : LoopState) : LoopState ⊕ List (Int × Nat) :=
  if ¬ s.currentY < s.totalHeight then Sum.inr s.slices
  else if MAX_SLICES ≤ s.slices.length then Sum.inr s.slices
  else if initialHeight * MAX_HEIGHT_GROWTH < s.totalHeight then Sum.inr s.slices
  else
    let aY := env.actualY k s.currentY
    let nH := env.newHeight k
    let tH := if s.totalHeight < nH then nH else s.totalHeight
    let sl := if env.captureOk k then s.slices ++ [(aY, env.sliceId k)] else s.slices
    if tH ≤ s.currentY + viewportHeight then Sum.inr sl
    else Sum.inl ⟨s.currentY + (viewportHeight - 100), tH, sl⟩

/-- Fuel-indexed runner of the capture loop from iteration `k`; `none`
means the loop was still running when the fuel ran out. -/
def runLoop (env : LoopEnv) (viewportHeight initialHeight : Int) :
    Nat → Nat → LoopState → Option (List (Int × Nat))
  | 0, _, _ => none
  | fuel + 1, k, s =>
    match loopIter env viewportHeight initialHeight k s with
    | Sum.inr out => some out
    | Sum.inl s2 => runLoop env viewportHeight initialHeight fuel (k + 1) s2

/-- The whole `captureLoop`: start at `currentY = 0` with
`totalHeight = initialHeight` and no slices. -/
def captureLoop (env : LoopEnv) (viewportHeight initialHeight : Int)
    (fuel : Nat) : Option (List (Int × Nat)) :=
  runLoop env viewportHeight initialHeight fuel 0 ⟨0, initialHeight, []⟩

/-- A page on which the loop stalls: constant height 1000, every capture
fails. With `viewportHeight = 100` the step `viewportHeight - 100` is 0. -/
def stallEnv : LoopEnv := ⟨fun _ _ => 0, fun _ => 1000, fun _ => false, fun _ => 0⟩

/-- C5 (evaluation at the failing input): on a constant-height 1000px page
with `viewportHeight = 100` (so the step is 0) whose captures all fail, the
loop state never changes and no amount of fuel finishes the loop — the
`MAX_SLICES` cap counts only committed slices, so it never fires, and the
height-growth cap never fires either: the capture loop does not terminate. -/
theorem c5_loop_can_stall (fuel k : Nat) :
    runLoop stallEnv 100 1000 fuel k ⟨0, 1000, []⟩ = none := by
  induction fuel generalizing k with
  | zero => rfl
  | succ n ih =>
    have hstep : loopIter stallEnv 100 1000 k ⟨0, 1000, []⟩ = Sum.inl ⟨0, 1000, []⟩ := rfl
    rw [runLoop, hstep]
    exact ih (k + 1)

/-- An ideal static page of height `pageHeight`: scrolling clamps at
`pageHeight - viewportHeight`, the height never changes, every capture
succeeds, slice ids are the iteration indices. -/
def idealEnv (pageHeight viewportHeight : Int) : LoopEnv :=
  ⟨fun _ y => min y (pageHeight - viewportHeight), fun _ => pageHeight,
    fun _ => true, fun k => k⟩

/-- C6 counterexample: on the claimed scenario (scrollHeight 2000,
viewportHeight 1000, step 900) the loop commits three slices, at measured
positions 0, 900 and 1000 — not two. At y=900 the bottom check compares
`900 + 1000 >= 2000`, which is false (1900 < 2000), so the loop continues
to requested position 1800 (clamped to 1000) before stopping. -/
theorem c6_counterexample :
    captureLoop (idealEnv 2000 1000) 1000 2000 60 = some [(0, 0), (900, 1), (1000, 2)] ∧
    Option.map List.length (captureLoop (idealEnv 2000 1000) 1000 2000 60) = some 3 ∧
    Option.map List.length (captureLoop (idealEnv 2000 1000) 1000 2000 60) ≠ some 2 := by
  exact ⟨rfl, rfl, by decide⟩

theorem c6_loop_invariant (H V : Int) (hV : 100 < V) (hH : V ≤ H)
    (hcap : H - V ≤ 49 * (V - 100)) :
    ∀ (fuel : Nat) (k : Nat) (sl : List (Int × Nat)),
      sl.length = k →
      (sl.countP fun p => decide (p.1 = H - V)) = 0 →
      (k = 0 ∨ ((k : Int) - 1) * (V - 100) < H - V) →
      H - V ≤ ((k : Int) + (fuel : Int) - 1) * (V - 100) →
      1 ≤ fuel →
      Option.map (List.countP fun p => decide (p.1 = H - V))
        (runLoop (idealEnv H V) V H fuel k ⟨(k : Int) * (V - 100), H, sl⟩) =
        some 1 := by
  intro fuel
  induction fuel with
  | zero => intro k sl _ _ _ _ hf; omega
  | succ n ih =>
    intro k sl hlen hcnt hprev hfuel _
    have hS : (0 : Int) < V - 100 := by omega
    have hk49 : (k : Int) ≤ 49 := by
      rcases hprev with h0 | hlt
      · subst h0; simp
      · have := (mul_lt_mul_right hS).mp (lt_of_lt_of_le hlt hcap)
        omega
    have hexp : ((k : Int) - 1) * (V - 100) = (k : Int) * (V - 100) - (V - 100) := by
      ring
    have hcyH : (k : Int) * (V - 100) < H := by
      rcases hprev with h0 | hlt
      · subst h0; simp; omega
      · rw [hexp] at hlt; omega
    have hg1 : ¬ ¬ ((k : Int) * (V - 100) < H) := not_not_intro hcyH
    have hg2 : ¬ MAX_SLICES ≤ sl.length := by
      simp only [MAX_SLICES, hlen]; omega
    have hg3 : ¬ H * MAX_HEIGHT_GROWTH < H := by
      simp only [MAX_HEIGHT_GROWTH]; omega
    have htH : (if H < H then H else H) = H := if_neg (lt_irrefl H)
    by_cases hbottom : H ≤ (k : Int) * (V - 100) + V
    · have haY : min ((k : Int) * (V - 100)) (H - V) = H - V :=
        min_eq_right (by omega)
      have hiter : loopIter (idealEnv H V) V H k ⟨(k : Int) * (V - 100), H, sl⟩ =
          Sum.inr (sl ++ [(H - V, k)]) := by
        simp only [loopIter, idealEnv, if_neg hg1, if_neg hg2, if_neg hg3,
          lt_irrefl, if_false, if_true, haY, if_pos hbottom]
      have hfin : List.countP (fun p => decide (p.1 = H - V)) (sl ++ [(H - V, k)]) = 1 := by
        rw [List.countP_append, hcnt]
        simp [List.countP_cons]
      rw [runLoop, hiter]
      simp only [Option.map, hfin]
    · have haY : min ((k : Int) * (V - 100)) (H - V) = (k : Int) * (V - 100) :=
        min_eq_left (by omega)
      have hiter : loopIter (idealEnv H V) V H k ⟨(k : Int) * (V - 100), H, sl⟩ =
          Sum.inl ⟨(k : Int) * (V - 100) + (V - 100), H,
            sl ++ [((k : Int) * (V - 100), k)]⟩ := by
        simp only [loopIter, idealEnv, if_neg hg1, if_neg hg2, if_neg hg3,
          lt_irrefl, if_false, if_true, haY, if_neg hbottom]
      have hksmall : (k : Int) * (V - 100) < H - V :=
        by linarith [not_le.mp hbottom]
      have hn1 : 1 ≤ n := by
        rcases Nat.eq_zero_or_pos n with h0 | h1
        · subst h0
          have h' : ((k : Int) + ((0 + 1 : Nat) : Int) - 1) * (V - 100) =
              (k : Int) * (V - 100) := by push_cast; ring
          rw [h'] at hfuel
          linarith
        · exact h1
      have hcy2 : (k : Int) * (V - 100) + (V - 100) = ((k : Int) + 1) * (V - 100) := by
        ring
      rw [runLoop, hiter, hcy2]
      have hlen2 : (sl ++ [((k : Int) * (V - 100), k)]).length = k + 1 := by
        simp [hlen]
      have hcnt2 : ((sl ++ [((k : Int) * (V - 100), k)]).countP
          fun p => decide (p.1 = H - V)) = 0 := by
        simp only [List.countP_append, hcnt, List.countP_cons, List.countP_nil]
        have : ¬ ((k : Int) * (V - 100) = H - V) := by omega
        simp [this]
      have hprev2 : (k + 1 = 0) ∨ (((k + 1 : Nat) : Int) - 1) * (V - 100) < H - V := by
        right
        push_cast
        have : ((k : Int) + 1 - 1) * (V - 100) = (k : Int) * (V - 100) := by ring
        rw [this]
        omega
      have hfuel2 : H - V ≤ (((k + 1 : Nat) : Int) + (n : Int) - 1) * (V - 100) := by
        push_cast
        push_cast at hfuel
        have heq : ((k : Int) + 1 + (n : Int) - 1) * (V - 100) =
            ((k : Int) + ((n : Int) + 1) - 1) * (V - 100) := by ring
        rw [heq]
        exact hfuel
      have := ih (k + 1) (sl ++ [((k : Int) * (V - 100), k)]) hlen2 hcnt2 hprev2 hfuel2 hn1
      push_cast at this ⊢
      exact this

/-- C6 (amended): for an ideal static page with `100 < viewportHeight ≤
pageHeight` whose bottom is reached within the 50-slice cap, the bottom
position `pageHeight - viewportHeight` is captured exactly once (the bottom
check runs after the capture of the current position); and on the
scrollHeight-2000, viewportHeight-1000 scenario the loop commits exactly
three slices, at positions 0, 900 and 1000. -/
theorem c6_bottom_once (H V : Int) (hV : 100 < V) (hH : V ≤ H)
    (hcap : H - V ≤ 49 * (V - 100)) :
    Option.map (List.countP fun p => decide (p.1 = H - V))
      (captureLoop (idealEnv H V) V H 51) = some 1 ∧
    captureLoop (idealEnv 2000 1000) 1000 2000 51 = some [(0, 0), (900, 1), (1000, 2)] := by
  constructor
  · have h0 : ((0 : Nat) : Int) * (V - 100) = 0 := by simp
    have := c6_loop_invariant H V hV hH hcap 51 0 [] rfl rfl (Or.inl rfl)
      (by push_cast; omega) (by omega)
    rw [h0] at this
    exact this
  · rfl

/-- Witness for C6's amended theorem at the 2000/1000 scenario page. -/
theorem c6_bottom_once_witness :
    Option.map (List.countP fun p => decide (p.1 = (2000 : Int) - 1000))
      (captureLoop (idealEnv 2000 1000) 1000 2000 51) = some 1 :=
  (c6_bottom_once 2000 1000 (by decide) (by decide) (by decide)).1

end DeepScroll
